import Mathlib

/-!
Verification of `src/closest_parameter_newton.rs`: a domain-constrained damped
Newton step (`ClosestParameterNewton`) used to find the closest parameter on a
NURBS curve.  The scalar float type `F` and the scalar parameter type `P` are
embedded as `ℚ`; the 1×1 Hessian is likewise a scalar, whose inversion fails
exactly on a singular (zero) matrix.  Fallible Rust functions returning
`Result<_, Error>` become `Except ArgminError _`.
-/

namespace Curvo

/-- An argmin-style error value: an error kind plus a human-readable text
(mirroring `argmin_error!(Kind, "text")`). -/
structure ArgminError where
  kind : String
  text : String
deriving DecidableEq, Repr

/-- Embedding of the struct `ClosestParameterNewton<F, P>` (fields `gamma`,
`knot_domain`, `closed`), with both scalars taken as `ℚ`. -/
structure ClosestParameterNewton where
  gamma : ℚ
  knot_domain : ℚ × ℚ
  closed : Bool
deriving DecidableEq, Repr

/-- `ClosestParameterNewton::new(domain, closed)`: gamma defaults to `1.0`. -/
def ClosestParameterNewton.new (domain : ℚ × ℚ) (closed : Bool) : ClosestParameterNewton :=
  { gamma := 1, knot_domain := domain, closed := closed }

/-- `ClosestParameterNewton::with_gamma(gamma)`: rejects `gamma <= 0.0 || gamma > 1.0`
with an `InvalidParameter` error, otherwise sets `self.gamma = gamma` and returns
the instance. -/
def ClosestParameterNewton.with_gamma (self : ClosestParameterNewton) (gamma : ℚ) :
    Except ArgminError ClosestParameterNewton :=
  if gamma ≤ 0 ∨ gamma > 1 then
    Except.error { kind := "InvalidParameter", text := "Newton: gamma must be in  (0, 1]." }
  else
    Except.ok { self with gamma := gamma }

/-- The solver-framework iteration state, reduced to the one field the step
reads and writes: the (optional) current parameter. -/
structure IterState where
  param : Option ℚ
deriving DecidableEq, Repr

/-- `state.take_param()`: removes and returns the current parameter. -/
def IterState.take_param (state : IterState) : Option ℚ × IterState :=
  (state.param, { state with param := none })

/-- `state.param(new_param)`: stores a new current parameter. -/
def IterState.set_param (state : IterState) (p : ℚ) : IterState :=
  { state with param := some p }

/-- The key-value log attached to an iteration; the step always returns `None`
for it, so only the type matters. -/
abbrev KV := List (String × String)

/-- The problem collaborator (`Gradient` + `Hessian` traits): supplies, at a
parameter value, the gradient and the (scalar, 1×1) Hessian, either of which
may fail. -/
structure Problem where
  gradient : ℚ → Except ArgminError ℚ
  hessian : ℚ → Except ArgminError ℚ

/-- `ArgminInv` for the scalar 1×1 Hessian: inversion fails exactly when the
matrix is singular (zero). -/
def argminInv (hessian : ℚ) : Except ArgminError ℚ :=
  if hessian = 0 then
    Except.error { kind := "SingularMatrix", text := "inverse failed: matrix is singular" }
  else
    Except.ok hessian⁻¹

/-- `ArgminDot` of the (scalar) inverted Hessian with the (scalar) gradient. -/
def argminDot (a b : ℚ) : ℚ := a * b

/-- `param.scaled_sub(&gamma, &d)`: computes `param - gamma * d`. -/
def scaled_sub (param gamma d : ℚ) : ℚ := param - gamma * d

/-- Lines 90–104 of `next_iter` (the `// Constrain the parameter to the domain`
block), verbatim: `knot_domain.0` is `.fst` (low) and `knot_domain.1` is `.snd`
(high). -/
def ClosestParameterNewton.constrainToDomain (self : ClosestParameterNewton)
    (new_param : ℚ) : ℚ :=
  if new_param < self.knot_domain.fst then
    if self.closed then
      self.knot_domain.snd - (new_param - self.knot_domain.fst)
    else
      self.knot_domain.fst
  else if new_param > self.knot_domain.snd then
    if self.closed then
      self.knot_domain.fst + (new_param - self.knot_domain.snd)
    else
      self.knot_domain.snd
  else
    new_param

/-- `Solver::next_iter`: takes the current parameter (failing with
`NotInitialized` when absent), evaluates gradient and Hessian (each `?`
propagates its error), inverts the Hessian (`?` propagates), forms the damped
Newton candidate `param.scaled_sub(&gamma, &(hessian.inv()?.dot(&grad)))`,
constrains it to the domain, and stores it back into the state. -/
def ClosestParameterNewton.next_iter (self : ClosestParameterNewton) (problem : Problem)
    (state : IterState) : Except ArgminError (IterState × Option KV) :=
  match state.take_param with
  | (none, _) =>
    Except.error
      { kind := "NotInitialized"
        text := "`Newton` requires an initial parameter vector. Please provide an initial guess via `Executor`s `configure` method." }
  | (some param, state) =>
    match problem.gradient param with
    | Except.error e => Except.error e
    | Except.ok grad =>
      match problem.hessian param with
      | Except.error e => Except.error e
      | Except.ok hessian =>
        match argminInv hessian with
        | Except.error e => Except.error e
        | Except.ok hinv =>
          let new_param := scaled_sub param self.gamma (argminDot hinv grad)
          let new_param := self.constrainToDomain new_param
          Except.ok (state.set_param new_param, none)

/-- The solver framework's termination status. -/
inductive TerminationStatus where
  | terminated (reason : String)
  | notTerminated
deriving DecidableEq, Repr

/-- `Solver::terminate`: always returns `TerminationStatus::NotTerminated`. -/
def ClosestParameterNewton.terminate (self : ClosestParameterNewton)
    (state : IterState) : TerminationStatus :=
  TerminationStatus.notTerminated

/-- The end-to-end scenario problem of the spec: at the current parameter the
gradient is `3` and the Hessian is `1`, so the raw Newton step is `3`. -/
def scenarioProblem : Problem :=
  { gradient := fun _ => Except.ok 3, hessian := fun _ => Except.ok 1 }

/-- A problem whose Hessian is singular (zero) at every parameter. -/
def singularProblem : Problem :=
  { gradient := fun _ => Except.ok 3, hessian := fun _ => Except.ok 0 }

/-- A candidate within the inclusive domain is returned unchanged in every
configuration: both boundary comparisons of `constrainToDomain` are strict. -/
theorem constrainToDomain_of_mem (self : ClosestParameterNewton) {c : ℚ}
    (h1 : self.knot_domain.fst ≤ c) (h2 : c ≤ self.knot_domain.snd) :
    self.constrainToDomain c = c := by
  unfold ClosestParameterNewton.constrainToDomain
  rw [if_neg (not_lt.mpr h1), if_neg (not_lt.mpr h2)]

/-- C1: the spec says that for the closed domain `(0, 10)` with `gamma = 1`,
current parameter `1`, gradient `3` and Hessian `1` (raw step `3`, damped
candidate `−2`), the wrap maps the candidate to `high − (low − c) = 8` inside
the domain. The code instead computes
`knot_domain.1 - (new_param - knot_domain.0) = high − (c − low)` and returns
`12`, not `8` — contradicting its own `// Constrain the parameter to the
domain` comment. -/
theorem C1_end_to_end_wrap_bug :
    (ClosestParameterNewton.new (0, 10) true).next_iter scenarioProblem ⟨some 1⟩ =
      Except.ok (⟨some 12⟩, none) ∧ (12 : ℚ) ≠ 8 := by
  constructor
  · norm_num [ClosestParameterNewton.next_iter, IterState.take_param, IterState.set_param,
      scenarioProblem, argminInv, argminDot, scaled_sub,
      ClosestParameterNewton.constrainToDomain, ClosestParameterNewton.new]
  · norm_num

/-- C2: the spec guarantees the returned parameter always lies within
`[low, high]`. With the closed domain `(0, 10)` the constrained result for the
damped candidate `−2` is `12`, which lies outside `[0, 10]`, refuting the
guarantee. -/
theorem C2_constrained_result_outside_domain :
    (ClosestParameterNewton.new (0, 10) true).constrainToDomain (-2) = 12 ∧
    ¬((0 : ℚ) ≤ (ClosestParameterNewton.new (0, 10) true).constrainToDomain (-2) ∧
      (ClosestParameterNewton.new (0, 10) true).constrainToDomain (-2) ≤ 10) := by
  have h : (ClosestParameterNewton.new (0, 10) true).constrainToDomain (-2) = 12 := by
    norm_num [ClosestParameterNewton.constrainToDomain, ClosestParameterNewton.new]
  refine ⟨h, ?_⟩
  rw [h]
  norm_num

/-- C3: the spec's wraparound round-trip says that for the closed domain
`(0, 10)` (span `10`) and `δ = 2`, the candidate `low − δ` maps to
`high − δ = 8` and `high + δ` maps to `low + δ = 2`. The code maps `low − δ`
to `high + δ = 12` (not `high − δ`); the above-`high` direction does behave as
claimed. -/
theorem C3_wraparound_roundtrip_bug :
    (ClosestParameterNewton.new (0, 10) true).constrainToDomain (0 - 2) = 10 + 2 ∧
    (10 + 2 : ℚ) ≠ 10 - 2 ∧
    (ClosestParameterNewton.new (0, 10) true).constrainToDomain (10 + 2) = 0 + 2 := by
  refine ⟨?_, by norm_num, ?_⟩
  · norm_num [ClosestParameterNewton.constrainToDomain, ClosestParameterNewton.new]
  · norm_num [ClosestParameterNewton.constrainToDomain, ClosestParameterNewton.new]

/-- C4: for an open domain (`closed = false`, with `low ≤ high`), every
candidate below `low` is clamped to `low`, every candidate above `high` is
clamped to `high`, and the constraint is idempotent. -/
theorem C4_open_domain_clamps (self : ClosestParameterNewton) (hopen : self.closed = false)
    (hdom : self.knot_domain.fst ≤ self.knot_domain.snd) :
    (∀ c, c < self.knot_domain.fst → self.constrainToDomain c = self.knot_domain.fst) ∧
    (∀ c, c > self.knot_domain.snd → self.constrainToDomain c = self.knot_domain.snd) ∧
    (∀ c, self.constrainToDomain (self.constrainToDomain c) = self.constrainToDomain c) := by
  have hbelow : ∀ c, c < self.knot_domain.fst →
      self.constrainToDomain c = self.knot_domain.fst := by
    intro c hc
    unfold ClosestParameterNewton.constrainToDomain
    rw [if_pos hc, hopen]
    simp
  have habove : ∀ c, c > self.knot_domain.snd →
      self.constrainToDomain c = self.knot_domain.snd := by
    intro c hc
    unfold ClosestParameterNewton.constrainToDomain
    rw [if_neg (not_lt.mpr (hdom.trans hc.le)), if_pos hc, hopen]
    simp
  refine ⟨hbelow, habove, fun c => ?_⟩
  rcases lt_or_le c self.knot_domain.fst with h1 | h1
  · rw [hbelow c h1, constrainToDomain_of_mem self le_rfl hdom]
  · rcases le_or_lt c self.knot_domain.snd with h2 | h2
    · rw [constrainToDomain_of_mem self h1 h2, constrainToDomain_of_mem self h1 h2]
    · rw [habove c h2, constrainToDomain_of_mem self hdom le_rfl]

/-- C4 witness: on the open domain `(0, 10)`, `−3` clamps to `0`, `13` clamps
to `10`, and re-constraining an already-constrained value is a no-op. -/
theorem C4_open_domain_clamps_witness :
    (ClosestParameterNewton.new (0, 10) false).constrainToDomain (-3) = 0 ∧
    (ClosestParameterNewton.new (0, 10) false).constrainToDomain 13 = 10 ∧
    (ClosestParameterNewton.new (0, 10) false).constrainToDomain
      ((ClosestParameterNewton.new (0, 10) false).constrainToDomain (-3)) =
      (ClosestParameterNewton.new (0, 10) false).constrainToDomain (-3) :=
  ⟨(C4_open_domain_clamps (ClosestParameterNewton.new (0, 10) false) rfl
      (by norm_num [ClosestParameterNewton.new])).1 (-3) (by norm_num [ClosestParameterNewton.new]),
   (C4_open_domain_clamps (ClosestParameterNewton.new (0, 10) false) rfl
      (by norm_num [ClosestParameterNewton.new])).2.1 13 (by norm_num [ClosestParameterNewton.new]),
   (C4_open_domain_clamps (ClosestParameterNewton.new (0, 10) false) rfl
      (by norm_num [ClosestParameterNewton.new])).2.2 (-3)⟩

/-- C5: every candidate strictly inside `[low, high]` is returned unchanged by
the domain constraint, for any configuration (open or closed). -/
theorem C5_interior_unchanged (self : ClosestParameterNewton) (c : ℚ)
    (h1 : self.knot_domain.fst < c) (h2 : c < self.knot_domain.snd) :
    self.constrainToDomain c = c :=
  constrainToDomain_of_mem self h1.le h2.le

/-- C5 witness: `5` is strictly inside `(0, 10)` and is returned unchanged in
both the closed and the open configuration. -/
theorem C5_interior_unchanged_witness :
    (ClosestParameterNewton.new (0, 10) true).constrainToDomain 5 = 5 ∧
    (ClosestParameterNewton.new (0, 10) false).constrainToDomain 5 = 5 :=
  ⟨C5_interior_unchanged (ClosestParameterNewton.new (0, 10) true) 5
      (by norm_num [ClosestParameterNewton.new]) (by norm_num [ClosestParameterNewton.new]),
   C5_interior_unchanged (ClosestParameterNewton.new (0, 10) false) 5
      (by norm_num [ClosestParameterNewton.new]) (by norm_num [ClosestParameterNewton.new])⟩

/-- C6: `with_gamma` fails with an `InvalidParameter` error (whose description
reads that gamma must be in `(0, 1]`) for every `gamma ≤ 0` or `gamma > 1`,
returning no modified instance on failure, and for every gamma in `(0, 1]`
succeeds with the instance whose `gamma` field is set to the new value. -/
theorem C6_with_gamma_validation (self : ClosestParameterNewton) (gamma : ℚ) :
    (gamma ≤ 0 ∨ gamma > 1 →
      self.with_gamma gamma =
        Except.error
          { kind := "InvalidParameter"
            text := "Newton: gamma must be in  (0, 1]." }) ∧
    (0 < gamma → gamma ≤ 1 →
      self.with_gamma gamma = Except.ok { self with gamma := gamma }) := by
  constructor
  · intro h
    unfold ClosestParameterNewton.with_gamma
    rw [if_pos h]
  · intro h1 h2
    unfold ClosestParameterNewton.with_gamma
    rw [if_neg (by push_neg; exact ⟨h1, h2⟩)]

/-- C6 witness: gamma `0`, `3/2` and `−1` are rejected with the
`InvalidParameter` error; gamma `1` and `1/2` are accepted and stored. -/
theorem C6_with_gamma_validation_witness :
    (ClosestParameterNewton.new (0, 10) true).with_gamma 0 =
      Except.error
        { kind := "InvalidParameter"
          text := "Newton: gamma must be in  (0, 1]." } ∧
    (ClosestParameterNewton.new (0, 10) true).with_gamma (3 / 2) =
      Except.error
        { kind := "InvalidParameter"
          text := "Newton: gamma must be in  (0, 1]." } ∧
    (ClosestParameterNewton.new (0, 10) true).with_gamma (-1) =
      Except.error
        { kind := "InvalidParameter"
          text := "Newton: gamma must be in  (0, 1]." } ∧
    (ClosestParameterNewton.new (0, 10) true).with_gamma 1 =
      Except.ok { ClosestParameterNewton.new (0, 10) true with gamma := 1 } ∧
    (ClosestParameterNewton.new (0, 10) true).with_gamma (1 / 2) =
      Except.ok { ClosestParameterNewton.new (0, 10) true with gamma := 1 / 2 } :=
  ⟨(C6_with_gamma_validation (ClosestParameterNewton.new (0, 10) true) 0).1
      (Or.inl (by norm_num [ClosestParameterNewton.new])),
   (C6_with_gamma_validation (ClosestParameterNewton.new (0, 10) true) (3 / 2)).1
      (Or.inr (by norm_num [ClosestParameterNewton.new])),
   (C6_with_gamma_validation (ClosestParameterNewton.new (0, 10) true) (-1)).1
      (Or.inl (by norm_num [ClosestParameterNewton.new])),
   (C6_with_gamma_validation (ClosestParameterNewton.new (0, 10) true) 1).2
      (by norm_num [ClosestParameterNewton.new]) (by norm_num [ClosestParameterNewton.new]),
   (C6_with_gamma_validation (ClosestParameterNewton.new (0, 10) true) (1 / 2)).2
      (by norm_num [ClosestParameterNewton.new]) (by norm_num [ClosestParameterNewton.new])⟩

/-- C7: when the Hessian supplied at the current parameter is singular (its
inversion fails), `next_iter` fails with the propagated matrix-inversion error
and produces no new parameter. -/
theorem C7_singular_hessian_propagates (self : ClosestParameterNewton) (problem : Problem)
    (state : IterState) (p g : ℚ) (hp : state.param = some p)
    (hg : problem.gradient p = Except.ok g) (hh : problem.hessian p = Except.ok 0) :
    self.next_iter problem state =
      Except.error { kind := "SingularMatrix", text := "inverse failed: matrix is singular" } := by
  unfold ClosestParameterNewton.next_iter IterState.take_param
  rw [hp]
  simp [hg, hh, argminInv]

/-- C7 witness: a problem with a zero Hessian everywhere makes the step fail
with the matrix-inversion error. -/
theorem C7_singular_hessian_propagates_witness :
    (ClosestParameterNewton.new (0, 10) true).next_iter singularProblem ⟨some 1⟩ =
      Except.error { kind := "SingularMatrix", text := "inverse failed: matrix is singular" } :=
  C7_singular_hessian_propagates (ClosestParameterNewton.new (0, 10) true)
    singularProblem ⟨some 1⟩ 1 3 rfl rfl rfl

/-- C8: invoking `next_iter` on a state that carries no current parameter
fails with the `NotInitialized` error and produces no new parameter. -/
theorem C8_missing_param_fails (self : ClosestParameterNewton) (problem : Problem)
    (state : IterState) (hp : state.param = none) :
    self.next_iter problem state =
      Except.error
        { kind := "NotInitialized"
          text := "`Newton` requires an initial parameter vector. Please provide an initial guess via `Executor`s `configure` method." } := by
  unfold ClosestParameterNewton.next_iter IterState.take_param
  rw [hp]

/-- C8 witness: the empty state makes the step fail with `NotInitialized`. -/
theorem C8_missing_param_fails_witness :
    (ClosestParameterNewton.new (0, 10) true).next_iter scenarioProblem ⟨none⟩ =
      Except.error
        { kind := "NotInitialized"
          text := "`Newton` requires an initial parameter vector. Please provide an initial guess via `Executor`s `configure` method." } :=
  C8_missing_param_fails (ClosestParameterNewton.new (0, 10) true) scenarioProblem ⟨none⟩ rfl

/-- C9: `terminate` returns `NotTerminated` for every instance and every
state; the step component never signals termination on its own. -/
theorem C9_terminate_never_signals (self : ClosestParameterNewton) (state : IterState) :
    self.terminate state = TerminationStatus.notTerminated := rfl

/-- C10: a candidate exactly at `low` or exactly at `high` is returned
unchanged (given `low ≤ high`), for any configuration: the boundary
comparisons are strict, so neither wrap nor clamp fires at the endpoints. -/
theorem C10_endpoints_unchanged (self : ClosestParameterNewton)
    (hdom : self.knot_domain.fst ≤ self.knot_domain.snd) :
    self.constrainToDomain self.knot_domain.fst = self.knot_domain.fst ∧
    self.constrainToDomain self.knot_domain.snd = self.knot_domain.snd :=
  ⟨constrainToDomain_of_mem self le_rfl hdom, constrainToDomain_of_mem self hdom le_rfl⟩

/-- C10 witness: on the domain `(0, 10)`, the endpoints `0` and `10` are
returned unchanged in both the closed and the open configuration. -/
theorem C10_endpoints_unchanged_witness :
    ((ClosestParameterNewton.new (0, 10) true).constrainToDomain 0 = 0 ∧
      (ClosestParameterNewton.new (0, 10) true).constrainToDomain 10 = 10) ∧
    ((ClosestParameterNewton.new (0, 10) false).constrainToDomain 0 = 0 ∧
      (ClosestParameterNewton.new (0, 10) false).constrainToDomain 10 = 10) :=
  ⟨C10_endpoints_unchanged (ClosestParameterNewton.new (0, 10) true) (by norm_num [ClosestParameterNewton.new]),
   C10_endpoints_unchanged (ClosestParameterNewton.new (0, 10) false) (by norm_num [ClosestParameterNewton.new])⟩

end Curvo
